import Mathlib

/-! drone-kube: the deployment plugin (plugin.go)

A shallow embedding of `plugin.go`.  The plugin is one linear procedure,
`Plugin.Exec`, around calls to code that is not in `plugin.go`: the libraries
`encoding/base64`, `io/ioutil`, the Kubernetes decoder and client, and the
template renderer `RenderTrim`.  Those calls are the fields of a `World`; every
function of `plugin.go` is translated line by line over a `World` and returns,
next to its Go result, the list of the calls it made, in order (`Run.calls`).

Each entry point of the world is called at most once in a run of `Exec` and
always in the same order, so a response function of the call's arguments
describes every behaviour the outside world can show to one run.
-/

namespace DroneKube

/-! ## Go errors (github.com/pkg/errors) -/

/-- A non-nil Go `error` value.  `fundamental` is what `errors.New` builds,
`withMessage` is what `errors.Wrap` builds around a non-nil cause, and
`library` is an error value handed back by a library outside the repository,
identified by its message. -/
inductive GoError where
  | fundamental (msg : String)
  | withMessage (cause : GoError) (msg : String)
  | library (msg : String)
  deriving DecidableEq, Repr

/-- The `Error()` method: the text of an error.  A wrapped error prints its
context, a colon, and the text of its cause. -/
def GoError.Error : GoError → String
  | .fundamental msg => msg
  | .withMessage cause msg => msg ++ ": " ++ cause.Error
  | .library msg => msg

/-- The `Cause()` of an error: the innermost error under all wrapping. -/
def GoError.Cause : GoError → GoError
  | .withMessage cause _ => cause.Cause
  | e => e

namespace errors

/-- The function `errors.New(message)`: a fresh, non-nil error.  The Go type `error` is
`Option GoError`, with `none` for `nil`. -/
def New (message : String) : Option GoError :=
  some (GoError.fundamental message)

/-- The function `errors.Wrap(err, message)`: `nil` when `err` is `nil`, otherwise `err`
annotated with `message`. -/
def Wrap (err : Option GoError) (message : String) : Option GoError :=
  match err with
  | none => none
  | some e => some (GoError.withMessage e message)

end errors

/-! ## The data model of plugin.go -/

structure Repo where
  Owner : String
  Name : String
  deriving DecidableEq, Repr

structure Build where
  Tag : String
  Event : String
  Number : Int
  Commit : String
  Ref : String
  Branch : String
  Author : String
  Status : String
  Link : String
  Started : Int
  Created : Int
  deriving DecidableEq, Repr

structure Job where
  Started : Int
  deriving DecidableEq, Repr

structure Config where
  Ca : String
  Server : String
  Token : String
  Namespace : String
  Template : String
  deriving DecidableEq, Repr

structure Plugin where
  Repo : Repo
  Build : Build
  Config : Config
  Job : Job
  deriving DecidableEq, Repr

/-! ## Library types the plugin touches -/

/-- The descriptor `appsV1.Deployment`.  The plugin reads and writes two of
its fields, `Name` and `Namespace` (promoted from `ObjectMeta`); every other
field (labels, spec, status and so on) is carried untouched in `Other`, whose
type `β` is left open. -/
structure Deployment (β : Type) where
  Name : String
  Namespace : String
  Other : β
  deriving DecidableEq, Repr

/-- The zero value of the descriptor, as declared by `var d appsV1.Deployment`:
empty name, empty namespace, and the zero value of all other fields. -/
def Deployment.zero {β : Type} [Inhabited β] : Deployment β :=
  { Name := "", Namespace := "", Other := default }

/-- The constant `coreV1.NamespaceDefault`. -/
def NamespaceDefault : String := "default"

/-- A Go `map[string]V`, kept as a list of key and value pairs in which no key
occurs twice. -/
abbrev GoMap (α : Type) := List (String × α)

/-- The assignment `m[k] = v`: replaces the value under `k` when the key is
present, adds the entry otherwise. -/
def GoMap.assign {α : Type} : GoMap α → String → α → GoMap α
  | [], k, v => [(k, v)]
  | (k0, v0) :: rest, k, v =>
    if k0 = k then (k, v) :: rest else (k0, v0) :: GoMap.assign rest k v

/-- The lookup `m[k]`. -/
def GoMap.get? {α : Type} : GoMap α → String → Option α
  | [], _ => none
  | (k0, v0) :: rest, k => if k0 = k then some v0 else GoMap.get? rest k

namespace api

/-- The fields of `api.Cluster` that plugin.go sets; the others keep their
zero value. -/
structure Cluster where
  Server : String
  CertificateAuthorityData : List Nat
  deriving DecidableEq, Repr

/-- The field of `api.AuthInfo` that plugin.go sets. -/
structure AuthInfo where
  Token : String
  deriving DecidableEq, Repr

/-- The fields of `api.Context` that plugin.go sets. -/
structure Context where
  Cluster : String
  AuthInfo : String
  deriving DecidableEq, Repr

/-- The credential set `api.Config` of client-go (tools/clientcmd/api): three
maps, keyed by name, and the name of the current context. -/
structure Config where
  Clusters : GoMap Cluster
  AuthInfos : GoMap AuthInfo
  Contexts : GoMap Context
  CurrentContext : String
  deriving DecidableEq, Repr

/-- The constructor `api.NewConfig()` of client-go: a configuration whose maps
are allocated and empty and whose current context is the empty string. -/
def NewConfig : Config :=
  { Clusters := [], AuthInfos := [], Contexts := [], CurrentContext := "" }

end api

/-! ## The outside world -/

/-- One call out of `plugin.go`, with the arguments it was given. -/
inductive Call (β : Type) where
  /-- The call `base64.StdEncoding.DecodeString(s)`. -/
  | DecodeString (s : String)
  /-- The call `clientcmd.NewNonInteractiveClientConfig(config, context, ..).ClientConfig()`. -/
  | ClientConfig (config : api.Config) (context : String)
  /-- The call `kubernetes.NewForConfig(actualCfg)`. -/
  | NewForConfig
  /-- The call `ioutil.ReadFile(filename)`. -/
  | ReadFile (filename : String)
  /-- The call `RenderTrim(template, p)`. -/
  | RenderTrim (template : String) (p : Plugin)
  /-- The call `runtime.DecodeInto(codecs.UniversalDecoder(), data, &dep)`. -/
  | DecodeInto (data : String)
  /-- The call `c.AppsV1().Deployments(ns).List(..)`. -/
  | DeploymentsList (ns : String)
  /-- The call `c.AppsV1().Deployments(ns).Update(dep)`. -/
  | DeploymentsUpdate (ns : String) (dep : Deployment β)
  /-- The call `c.AppsV1().Deployments(ns).Create(dep)`. -/
  | DeploymentsCreate (ns : String) (dep : Deployment β)
  deriving DecidableEq, Repr

/-- The code the plugin calls outside `plugin.go`, as response functions.  `ρ` is the type of
a resolved client configuration (`*rest.Config`), `κ` the type of a client
(`*kubernetes.Clientset`), `β` the type of the descriptor fields the plugin
does not touch.  A call that fails answers `Except.error` with a non-nil
error; a call that succeeds answers `Except.ok` with its value. -/
structure World (ρ κ β : Type) where
  DecodeString : String → Except GoError (List Nat)
  ClientConfig : api.Config → String → Except GoError ρ
  NewForConfig : ρ → Except GoError κ
  ReadFile : String → Except GoError String
  RenderTrim : String → Plugin → Except GoError String
  DecodeInto : String → Except GoError (Deployment β)
  DeploymentsList : κ → String → Except GoError (List (Deployment β))
  DeploymentsUpdate : κ → String → Deployment β → Except GoError (Deployment β)
  DeploymentsCreate : κ → String → Deployment β → Except GoError (Deployment β)

/-- The `err` half of a Go `(value, err)` result. -/
def errOf {α : Type} : Except GoError α → Option GoError
  | .ok _ => none
  | .error e => some e

/-- The result of running a function of plugin.go: what it returns and the
library calls it made, oldest first. -/
structure Run (α γ : Type) where
  ret : α
  calls : List γ
  deriving DecidableEq, Repr

/-! ## The functions of plugin.go -/

variable {ρ κ β : Type}

/-- The loop of `findDeployment` over `deployments.Items`: the first item
whose name is `depName`, or the zero descriptor `d` when the loop runs out. -/
def findDeployment.scan [Inhabited β] (depName : String) :
    List (Deployment β) → Deployment β × Option GoError
  | [] => (Deployment.zero, none)
  | thisDep :: items =>
    if thisDep.Name = depName then (thisDep, none)
    else findDeployment.scan depName items

/-- The function `findDeployment(depName, namespace, c)` (plugin.go lines 122-135). -/
def findDeployment [Inhabited β] (w : World ρ κ β) (depName : String) (ns : String)
    (c : κ) : Run (Deployment β × Option GoError) (Call β) :=
  match w.DeploymentsList c ns with
  | .error err => ⟨(Deployment.zero, some err), [Call.DeploymentsList ns]⟩
  | .ok items => ⟨findDeployment.scan depName items, [Call.DeploymentsList ns]⟩

/-- The function `openAndSub(templateFile, p)` (plugin.go lines 138-144). -/
def openAndSub (w : World ρ κ β) (templateFile : String) (p : Plugin) :
    Run (Except GoError String) (Call β) :=
  match w.ReadFile templateFile with
  | .error err => ⟨.error err, [Call.ReadFile templateFile]⟩
  | .ok t => ⟨w.RenderTrim t p, [Call.ReadFile templateFile, Call.RenderTrim t p]⟩

/-- The method `Plugin.createKubeClient()` (plugin.go lines 147-176). -/
def createKubeClient (w : World ρ κ β) (p : Plugin) :
    Run (Except GoError κ) (Call β) :=
  match w.DecodeString p.Config.Ca with
  | .error err => ⟨.error err, [Call.DecodeString p.Config.Ca]⟩
  | .ok ca =>
    let config := api.NewConfig
    let config := { config with
      Clusters := config.Clusters.assign "drone"
        { Server := p.Config.Server, CertificateAuthorityData := ca } }
    let config := { config with
      AuthInfos := config.AuthInfos.assign "drone" { Token := p.Config.Token } }
    let config := { config with
      Contexts := config.Contexts.assign "drone"
        { Cluster := "drone", AuthInfo := "drone" } }
    let config := { config with CurrentContext := "drone" }
    match w.ClientConfig config "drone" with
    | .error err =>
      ⟨.error err, [Call.DecodeString p.Config.Ca, Call.ClientConfig config "drone"]⟩
    | .ok actualCfg =>
      ⟨w.NewForConfig actualCfg,
        [Call.DecodeString p.Config.Ca, Call.ClientConfig config "drone",
          Call.NewForConfig]⟩

/-- The method `Plugin.Exec()` (plugin.go lines 62-120). -/
def Exec [Inhabited β] (w : World ρ κ β) (p : Plugin) :
    Run (Option GoError) (Call β) :=
  if p.Config.Server = "" then
    ⟨errors.New "KUBE_SERVER is not defined", []⟩
  else if p.Config.Token = "" then
    ⟨errors.New "KUBE_TOKEN is not defined", []⟩
  else if p.Config.Ca = "" then
    ⟨errors.New "KUBE_CA is not defined", []⟩
  else if p.Config.Template = "" then
    ⟨errors.New "KUBE_TEMPLATE, or template must be defined", []⟩
  else
    -- connect to Kubernetes
    let client := createKubeClient w p
    match client.ret with
    | .error err =>
      ⟨errors.Wrap (some err) "can't create kubernetes client", client.calls⟩
    | .ok clientset =>
      -- parse the template file and do substitutions
      let sub := openAndSub w p.Config.Template p
      match sub.ret with
      | .error err =>
        ⟨errors.Wrap (some err) "can't read provided deployment template",
          client.calls ++ sub.calls⟩
      | .ok txt =>
        match w.DecodeInto txt with
        | .error err =>
          ⟨errors.Wrap (some err) "can't decode provided deployment template",
            client.calls ++ sub.calls ++ [Call.DecodeInto txt]⟩
        | .ok dep =>
          -- override deployment namespace
          let dep :=
            if p.Config.Namespace ≠ "" then { dep with Namespace := p.Config.Namespace }
            else dep
          -- set default namespace if not set
          let dep :=
            if dep.Namespace = "" then { dep with Namespace := NamespaceDefault }
            else dep
          -- check and see if there is a deployment already
          let found := findDeployment w dep.Name dep.Namespace clientset
          match found.ret with
          | (_, some err) =>
            ⟨errors.Wrap (some err) "can't read deployments",
              client.calls ++ sub.calls ++ [Call.DecodeInto txt] ++ found.calls⟩
          | (oldDep, none) =>
            if oldDep.Name = dep.Name then
              -- update the existing deployment
              ⟨errors.Wrap (errOf (w.DeploymentsUpdate clientset dep.Namespace dep))
                  "can't update provided deployment",
                client.calls ++ sub.calls ++ [Call.DecodeInto txt] ++ found.calls
                  ++ [Call.DeploymentsUpdate dep.Namespace dep]⟩
            else
              -- create the new deployment since this never existed
              ⟨errors.Wrap (errOf (w.DeploymentsCreate clientset dep.Namespace dep))
                  "can't create provided deployment",
                client.calls ++ sub.calls ++ [Call.DecodeInto txt] ++ found.calls
                  ++ [Call.DeploymentsCreate dep.Namespace dep]⟩

/-! ## Reading a list of calls -/

/-- Whether a call is a request to the cluster: a list, an update or a create
of deployments. -/
def Call.isCluster : Call β → Bool
  | .DeploymentsList _ => true
  | .DeploymentsUpdate _ _ => true
  | .DeploymentsCreate _ _ => true
  | _ => false

/-- Whether a call is the resolution of a credential set by the client
builder. -/
def Call.isClientConfig : Call β → Bool
  | .ClientConfig _ _ => true
  | _ => false

/-- Whether a call is an update of a deployment. -/
def Call.isUpdate : Call β → Bool
  | .DeploymentsUpdate _ _ => true
  | _ => false

/-- Whether a call is a create of a deployment. -/
def Call.isCreate : Call β → Bool
  | .DeploymentsCreate _ _ => true
  | _ => false

/-! ## A concrete world

The worlds below answer every library call by a computable function, so that
`Exec` can be evaluated on them. -/

namespace base64

/-- The value of a character in the standard alphabet of RFC 4648. -/
def value (c : Char) : Option Nat :=
  if 65 ≤ c.toNat ∧ c.toNat ≤ 90 then some (c.toNat - 65)
  else if 97 ≤ c.toNat ∧ c.toNat ≤ 122 then some (c.toNat - 97 + 26)
  else if 48 ≤ c.toNat ∧ c.toNat ≤ 57 then some (c.toNat - 48 + 52)
  else if c = '+' then some 62
  else if c = '/' then some 63
  else none

/-- The error `base64.CorruptInputError(offset)`. -/
def corrupt {α : Type} (offset : Nat) : Except GoError α :=
  .error (.library ("illegal base64 data at input byte " ++ toString offset))

/-- Padded standard base64 decoding of the characters that start at byte
`si`, one group of four characters at a time, for input without line breaks.
The offset of an error follows `encoding/base64`: the index of an illegal
character or of misplaced padding, the start of a group that is cut short, the
end of the input when the second padding character is missing, the index after
the padding when input follows it. -/
def decodeFrom (si : Nat) : List Char → Except GoError (List Nat)
  | [] => .ok []
  | [c0] =>
    match value c0 with
    | none => corrupt si
    | some _ => corrupt si
  | [c0, c1] =>
    match value c0, value c1 with
    | none, _ => corrupt si
    | some _, none => corrupt (si + 1)
    | some _, some _ => corrupt si
  | [c0, c1, c2] =>
    match value c0, value c1, value c2 with
    | none, _, _ => corrupt si
    | some _, none, _ => corrupt (si + 1)
    | some _, some _, none => if c2 = '=' then corrupt (si + 3) else corrupt (si + 2)
    | some _, some _, some _ => corrupt si
  | c0 :: c1 :: c2 :: c3 :: rest =>
    match value c0, value c1, value c2, value c3 with
    | none, _, _, _ => corrupt si
    | some _, none, _, _ => corrupt (si + 1)
    | some v0, some v1, none, _ =>
      if c2 = '=' then
        if c3 = '=' then
          if rest = [] then .ok [(v0 * 4 + v1 / 16) % 256] else corrupt (si + 4)
        else corrupt (si + 2)
      else corrupt (si + 2)
    | some v0, some v1, some v2, none =>
      if c3 = '=' then
        if rest = [] then .ok [(v0 * 4 + v1 / 16) % 256, (v1 * 16 + v2 / 4) % 256]
        else corrupt (si + 4)
      else corrupt (si + 3)
    | some v0, some v1, some v2, some v3 =>
      match decodeFrom (si + 4) rest with
      | .error e => .error e
      | .ok bytes =>
        .ok ((v0 * 4 + v1 / 16) % 256 :: (v1 * 16 + v2 / 4) % 256
          :: (v2 * 64 + v3) % 256 :: bytes)

/-- Standard base64 decoding of a string. -/
def DecodeString (s : String) : Except GoError (List Nat) :=
  decodeFrom 0 s.data

end base64

namespace demo

/-- A resolved client configuration: where to connect and with what. -/
structure Rest where
  Host : String
  BearerToken : String
  CAData : List Nat
  deriving DecidableEq, Repr

/-- Resolves the named context of a credential set: fails when the context,
its cluster or its credentials are missing, or when the cluster has no
server. -/
def ClientConfig (config : api.Config) (context : String) : Except GoError Rest :=
  match config.Contexts.get? context with
  | none => .error (.library "invalid configuration: context was not found")
  | some ctx =>
    match config.Clusters.get? ctx.Cluster, config.AuthInfos.get? ctx.AuthInfo with
    | some cluster, some auth =>
      if cluster.Server = "" then
        .error (.library "invalid configuration: no server found")
      else
        .ok { Host := cluster.Server, BearerToken := auth.Token,
              CAData := cluster.CertificateAuthorityData }
    | _, _ => .error (.library "invalid configuration: cluster or user was not found")

/-- A world with one template file, `deployment.yaml`, whose text has no
placeholder and decodes to `manifest`, and one cluster that answers every
list request with `listing`, accepts an update of a deployment it lists and a
create of a deployment it does not list, and rejects the others. -/
def world (manifest : Deployment String)
    (listing : Except GoError (List (Deployment String))) : World Rest String String where
  DecodeString := base64.DecodeString
  ClientConfig := ClientConfig
  NewForConfig := fun actualCfg => .ok actualCfg.Host
  ReadFile := fun filename =>
    if filename = "deployment.yaml" then .ok "kind: Deployment"
    else .error (.library ("open " ++ filename ++ ": no such file or directory"))
  RenderTrim := fun template _ => .ok template
  DecodeInto := fun data =>
    if data = "kind: Deployment" then .ok manifest
    else .error (.library "couldn't get version/kind; json parse error")
  DeploymentsList := fun _ _ => listing
  DeploymentsUpdate := fun _ _ dep =>
    match listing with
    | .error e => .error e
    | .ok items =>
      if items.any (fun old => old.Name = dep.Name) then .ok dep
      else .error (.library ("deployments.apps not found: " ++ dep.Name))
  DeploymentsCreate := fun _ _ dep =>
    match listing with
    | .error e => .error e
    | .ok items =>
      if items.any (fun old => old.Name = dep.Name) then
        .error (.library ("deployments.apps already exists: " ++ dep.Name))
      else .ok dep

/-- A plugin configured for `world`, with certificate authority `ca` and with
`ns` as its namespace override. -/
def plugin (ca ns : String) : Plugin where
  Repo := { Owner := "octocat", Name := "hello-world" }
  Build := { Tag := "", Event := "push", Number := 7, Commit := "abc123",
             Ref := "refs/heads/master", Branch := "master", Author := "octocat",
             Status := "success", Link := "", Started := 0, Created := 0 }
  Config := { Ca := ca, Server := "https://kube.example", Token := "s3cr3t",
              Namespace := ns, Template := "deployment.yaml" }
  Job := { Started := 0 }

end demo

/-! ## Lemmas on the functions of plugin.go -/

section Lemmas

set_option linter.unusedSectionVars false

variable [Inhabited β]

theorem scan_err (depName : String) (items : List (Deployment β)) :
    (findDeployment.scan depName items).2 = none := by
  induction items with
  | nil => rfl
  | cons thisDep items ih =>
    unfold findDeployment.scan
    split
    · rfl
    · exact ih

theorem scan_eq_find (depName : String) (items : List (Deployment β)) :
    (findDeployment.scan depName items).1
      = (items.find? (fun thisDep => thisDep.Name = depName)).getD Deployment.zero := by
  induction items with
  | nil => rfl
  | cons thisDep items ih =>
    unfold findDeployment.scan
    by_cases h : thisDep.Name = depName
    · simp [h]
    · simp [h, ih]

theorem scan_name_of_mem (depName : String) (items : List (Deployment β))
    (h : ∃ old ∈ items, old.Name = depName) :
    (findDeployment.scan depName items).1.Name = depName := by
  induction items with
  | nil => simp at h
  | cons thisDep items ih =>
    unfold findDeployment.scan
    by_cases hd : thisDep.Name = depName
    · simp [hd]
    · simp only [hd, if_false]
      apply ih
      obtain ⟨old, hmem, hname⟩ := h
      rcases List.mem_cons.mp hmem with heq | hmem
      · exact absurd (heq ▸ hname) hd
      · exact ⟨old, hmem, hname⟩

theorem scan_of_not_mem (depName : String) (items : List (Deployment β))
    (h : ∀ old ∈ items, old.Name ≠ depName) :
    findDeployment.scan depName items = (Deployment.zero, none) := by
  induction items with
  | nil => rfl
  | cons thisDep items ih =>
    unfold findDeployment.scan
    have hd : thisDep.Name ≠ depName := h thisDep (List.mem_cons_self _ _)
    simp only [hd, if_false]
    exact ih (fun old hmem => h old (List.mem_cons_of_mem _ hmem))

/-- The name of the descriptor the scan returns is the requested name exactly
when a listed deployment has that name or the requested name is empty. -/
theorem scan_name_iff (depName : String) (items : List (Deployment β)) :
    (findDeployment.scan depName items).1.Name = depName
      ↔ (∃ old ∈ items, old.Name = depName) ∨ depName = "" := by
  by_cases h : ∃ old ∈ items, old.Name = depName
  · simp [h, scan_name_of_mem depName items h]
  · have hnone : ∀ old ∈ items, old.Name ≠ depName := by
      intro old hmem hname
      exact h ⟨old, hmem, hname⟩
    rw [scan_of_not_mem depName items hnone]
    simp only [h, false_or, Deployment.zero]
    exact eq_comm

theorem createKubeClient_no_cluster_call (w : World ρ κ β) (p : Plugin) :
    (createKubeClient w p).calls.filter Call.isCluster = [] := by
  unfold createKubeClient
  split
  · rfl
  · dsimp only
    split <;> rfl

theorem openAndSub_no_cluster_call (w : World ρ κ β) (templateFile : String) (p : Plugin) :
    (openAndSub w templateFile p).calls.filter Call.isCluster = [] := by
  unfold openAndSub
  split <;> rfl

/-- The run of `Exec` once the configuration is complete and the client, the
rendered text and the decoded descriptor `d` are there: one list call in the
resolved namespace, then nothing more, an update or a create. -/
theorem Exec_of_decoded (w : World ρ κ β) (p : Plugin)
    (hServer : p.Config.Server ≠ "") (hToken : p.Config.Token ≠ "")
    (hCa : p.Config.Ca ≠ "") (hTemplate : p.Config.Template ≠ "")
    (clientset : κ) (hclient : (createKubeClient w p).ret = .ok clientset)
    (txt : String) (hsub : (openAndSub w p.Config.Template p).ret = .ok txt)
    (d : Deployment β) (hdec : w.DecodeInto txt = .ok d)
    (ns : String)
    (hns : ns = if p.Config.Namespace ≠ "" then p.Config.Namespace
      else if d.Namespace = "" then NamespaceDefault else d.Namespace) :
    Exec w p =
      match w.DeploymentsList clientset ns with
      | .error e =>
        ⟨some (.withMessage e "can't read deployments"),
          (createKubeClient w p).calls ++ (openAndSub w p.Config.Template p).calls
            ++ [Call.DecodeInto txt] ++ [Call.DeploymentsList ns]⟩
      | .ok items =>
        if (findDeployment.scan d.Name items).1.Name = d.Name then
          ⟨errors.Wrap (errOf (w.DeploymentsUpdate clientset ns { d with Namespace := ns }))
              "can't update provided deployment",
            (createKubeClient w p).calls ++ (openAndSub w p.Config.Template p).calls
              ++ [Call.DecodeInto txt] ++ [Call.DeploymentsList ns]
              ++ [Call.DeploymentsUpdate ns { d with Namespace := ns }]⟩
        else
          ⟨errors.Wrap (errOf (w.DeploymentsCreate clientset ns { d with Namespace := ns }))
              "can't create provided deployment",
            (createKubeClient w p).calls ++ (openAndSub w p.Config.Template p).calls
              ++ [Call.DecodeInto txt] ++ [Call.DeploymentsList ns]
              ++ [Call.DeploymentsCreate ns { d with Namespace := ns }]⟩ := by
  have hdep : (if (if p.Config.Namespace ≠ "" then
          ({ d with Namespace := p.Config.Namespace } : Deployment β) else d).Namespace = ""
        then { (if p.Config.Namespace ≠ "" then
          ({ d with Namespace := p.Config.Namespace } : Deployment β) else d)
            with Namespace := NamespaceDefault }
        else (if p.Config.Namespace ≠ "" then
          ({ d with Namespace := p.Config.Namespace } : Deployment β) else d))
      = { d with Namespace := ns } := by
    subst hns
    by_cases h1 : p.Config.Namespace = ""
    · by_cases h2 : d.Namespace = ""
      · simp [h1, h2]
      · simp [h1, h2]
    · simp [h1]
  unfold Exec
  simp only [hServer, hToken, hCa, hTemplate, if_false, hclient, hsub, hdec]
  rw [hdep]
  unfold findDeployment
  cases hl : w.DeploymentsList clientset ns with
  | error e => simp [errors.Wrap]
  | ok items =>
    simp only [scan_err]
    have herr := scan_err d.Name items
    rcases hscan : findDeployment.scan d.Name items with ⟨oldDep, err⟩
    rw [hscan] at herr
    simp only at herr
    subst herr
    simp

theorem openAndSub_ok_iff (w : World ρ κ β) (templateFile : String) (p : Plugin)
    (txt : String) :
    (openAndSub w templateFile p).ret = .ok txt
      ↔ ∃ t, w.ReadFile templateFile = .ok t ∧ w.RenderTrim t p = .ok txt := by
  unfold openAndSub
  cases hread : w.ReadFile templateFile with
  | error e => simp
  | ok t => simp

/-- A run that does not reach the lookup returns a non-nil error and makes no
cluster call. -/
theorem Exec_early (w : World ρ κ β) (p : Plugin)
    (h : ¬ (p.Config.Server ≠ "" ∧ p.Config.Token ≠ "" ∧ p.Config.Ca ≠ ""
      ∧ p.Config.Template ≠ ""
      ∧ ∃ clientset txt d, (createKubeClient w p).ret = .ok clientset
        ∧ (openAndSub w p.Config.Template p).ret = .ok txt ∧ w.DecodeInto txt = .ok d)) :
    (Exec w p).ret ≠ none ∧ (Exec w p).calls.filter Call.isCluster = [] := by
  unfold Exec
  by_cases h1 : p.Config.Server = ""
  · simp [h1, errors.New]
  by_cases h2 : p.Config.Token = ""
  · simp [h1, h2, errors.New]
  by_cases h3 : p.Config.Ca = ""
  · simp [h1, h2, h3, errors.New]
  by_cases h4 : p.Config.Template = ""
  · simp [h1, h2, h3, h4, errors.New]
  simp only [h1, h2, h3, h4, if_false]
  cases hclient : (createKubeClient w p).ret with
  | error e => simp [errors.Wrap, createKubeClient_no_cluster_call]
  | ok clientset =>
    cases hsub : (openAndSub w p.Config.Template p).ret with
    | error e =>
      simp [errors.Wrap, createKubeClient_no_cluster_call, openAndSub_no_cluster_call]
    | ok txt =>
      cases hdec : w.DecodeInto txt with
      | error e =>
        simp [hdec, errors.Wrap, createKubeClient_no_cluster_call,
          openAndSub_no_cluster_call, Call.isCluster]
      | ok d =>
        exact absurd ⟨h1, h2, h3, h4, clientset, txt, d, hclient, hsub, hdec⟩ h

theorem update_mem_iff (ns : String) (dep : Deployment β) (calls : List (Call β)) :
    Call.DeploymentsUpdate ns dep ∈ calls
      ↔ Call.DeploymentsUpdate ns dep ∈ calls.filter Call.isCluster := by
  simp [List.mem_filter, Call.isCluster]

theorem create_mem_iff (ns : String) (dep : Deployment β) (calls : List (Call β)) :
    Call.DeploymentsCreate ns dep ∈ calls
      ↔ Call.DeploymentsCreate ns dep ∈ calls.filter Call.isCluster := by
  simp [List.mem_filter, Call.isCluster]

theorem countP_isUpdate_filter (calls : List (Call β)) :
    calls.countP Call.isUpdate = (calls.filter Call.isCluster).countP Call.isUpdate := by
  induction calls with
  | nil => rfl
  | cons c calls ih =>
    cases c <;> simp [List.filter_cons, List.countP_cons, Call.isCluster, Call.isUpdate, ih]

theorem countP_isCreate_filter (calls : List (Call β)) :
    calls.countP Call.isCreate = (calls.filter Call.isCluster).countP Call.isCreate := by
  induction calls with
  | nil => rfl
  | cons c calls ih =>
    cases c <;> simp [List.filter_cons, List.countP_cons, Call.isCluster, Call.isCreate, ih]

/-- The cluster calls of a run that got as far as the lookup and stopped
there, went on to an update, or went on to a create. -/
theorem filter_cluster_calls (w : World ρ κ β) (p : Plugin) (txt : String)
    (tail : List (Call β)) :
    ((createKubeClient w p).calls ++ (openAndSub w p.Config.Template p).calls
        ++ [Call.DecodeInto txt] ++ tail).filter Call.isCluster
      = tail.filter Call.isCluster := by
  simp [List.filter_append, createKubeClient_no_cluster_call, openAndSub_no_cluster_call,
    Call.isCluster]

/-- The cluster calls of a run that reached the lookup: the lookup in the
resolved namespace alone when it fails, and otherwise the lookup followed by
one update or one create of the decoded descriptor in that namespace. -/
theorem Exec_cluster_calls (w : World ρ κ β) (p : Plugin)
    (hServer : p.Config.Server ≠ "") (hToken : p.Config.Token ≠ "")
    (hCa : p.Config.Ca ≠ "") (hTemplate : p.Config.Template ≠ "")
    (clientset : κ) (hclient : (createKubeClient w p).ret = .ok clientset)
    (txt : String) (hsub : (openAndSub w p.Config.Template p).ret = .ok txt)
    (d : Deployment β) (hdec : w.DecodeInto txt = .ok d)
    (ns : String)
    (hns : ns = if p.Config.Namespace ≠ "" then p.Config.Namespace
      else if d.Namespace = "" then NamespaceDefault else d.Namespace) :
    (Exec w p).calls.filter Call.isCluster =
      match w.DeploymentsList clientset ns with
      | .error _ => [Call.DeploymentsList ns]
      | .ok items =>
        if (findDeployment.scan d.Name items).1.Name = d.Name then
          [Call.DeploymentsList ns, Call.DeploymentsUpdate ns { d with Namespace := ns }]
        else
          [Call.DeploymentsList ns, Call.DeploymentsCreate ns { d with Namespace := ns }] := by
  rw [Exec_of_decoded w p hServer hToken hCa hTemplate clientset hclient txt hsub d hdec
    ns hns]
  cases w.DeploymentsList clientset ns with
  | error e =>
    simp only
    rw [filter_cluster_calls]
    rfl
  | ok items =>
    simp only
    split
    · simp only [List.append_assoc]
      rw [← List.append_assoc, ← List.append_assoc, filter_cluster_calls]
      rfl
    · simp only [List.append_assoc]
      rw [← List.append_assoc, ← List.append_assoc, filter_cluster_calls]
      rfl

/-- The cluster calls of a run that reached the lookup, without saying which
of the three shapes they take, but a successful lookup is followed by a
write. -/
theorem Exec_cluster_calls_shape (w : World ρ κ β) (p : Plugin)
    (hServer : p.Config.Server ≠ "") (hToken : p.Config.Token ≠ "")
    (hCa : p.Config.Ca ≠ "") (hTemplate : p.Config.Template ≠ "")
    (clientset : κ) (hclient : (createKubeClient w p).ret = .ok clientset)
    (txt : String) (hsub : (openAndSub w p.Config.Template p).ret = .ok txt)
    (d : Deployment β) (hdec : w.DecodeInto txt = .ok d)
    (ns : String)
    (hns : ns = if p.Config.Namespace ≠ "" then p.Config.Namespace
      else if d.Namespace = "" then NamespaceDefault else d.Namespace) :
    ((Exec w p).calls.filter Call.isCluster = [Call.DeploymentsList ns]
        ∨ (Exec w p).calls.filter Call.isCluster
          = [Call.DeploymentsList ns, Call.DeploymentsUpdate ns { d with Namespace := ns }]
        ∨ (Exec w p).calls.filter Call.isCluster
          = [Call.DeploymentsList ns, Call.DeploymentsCreate ns { d with Namespace := ns }])
      ∧ ∀ items, w.DeploymentsList clientset ns = .ok items →
          (Exec w p).calls.filter Call.isCluster ≠ [Call.DeploymentsList ns] := by
  have h := Exec_cluster_calls w p hServer hToken hCa hTemplate clientset hclient txt hsub
    d hdec ns hns
  constructor
  · cases hl : w.DeploymentsList clientset ns with
    | error e =>
      rw [hl] at h
      exact Or.inl h
    | ok items =>
      rw [hl] at h
      by_cases hscan : (findDeployment.scan d.Name items).1.Name = d.Name
      · simp only [hscan, if_true] at h
        exact Or.inr (Or.inl h)
      · simp only [hscan, if_false] at h
        exact Or.inr (Or.inr h)
  · intro items hl
    rw [hl] at h
    simp only at h
    rw [h]
    split <;> simp

end Lemmas

/-! ## The create-or-update decision -/

section Claims

variable [Inhabited β]

/-- Create path for a descriptor that has a name: when the configuration is
complete, the earlier steps succeed, the decoded descriptor has a non-empty
name and no listed deployment has that name, the cluster calls of `Exec` are
the lookup and one create of the submitted descriptor, with no update. -/
theorem Exec_create_path_named (w : World ρ κ β) (p : Plugin)
    (hServer : p.Config.Server ≠ "") (hToken : p.Config.Token ≠ "")
    (hCa : p.Config.Ca ≠ "") (hTemplate : p.Config.Template ≠ "")
    (clientset : κ) (hclient : (createKubeClient w p).ret = .ok clientset)
    (txt : String) (hsub : (openAndSub w p.Config.Template p).ret = .ok txt)
    (d : Deployment β) (hdec : w.DecodeInto txt = .ok d)
    (ns : String)
    (hns : ns = if p.Config.Namespace ≠ "" then p.Config.Namespace
      else if d.Namespace = "" then NamespaceDefault else d.Namespace)
    (items : List (Deployment β)) (hlist : w.DeploymentsList clientset ns = .ok items)
    (hnone : ∀ old ∈ items, old.Name ≠ d.Name) (hname : d.Name ≠ "") :
    (Exec w p).calls.filter Call.isCluster
        = [Call.DeploymentsList ns, Call.DeploymentsCreate ns { d with Namespace := ns }]
      ∧ (Exec w p).calls.countP Call.isCreate = 1
      ∧ (Exec w p).calls.countP Call.isUpdate = 0 := by
  have hscan : ¬ (findDeployment.scan d.Name items).1.Name = d.Name := by
    rw [scan_name_iff]
    rintro (⟨old, hmem, hold⟩ | hempty)
    · exact hnone old hmem hold
    · exact hname hempty
  have hcalls : (Exec w p).calls.filter Call.isCluster
      = [Call.DeploymentsList ns, Call.DeploymentsCreate ns { d with Namespace := ns }] := by
    rw [Exec_of_decoded w p hServer hToken hCa hTemplate clientset hclient txt hsub d hdec
      ns hns, hlist]
    simp only [hscan, if_false, List.append_assoc]
    rw [← List.append_assoc, ← List.append_assoc, filter_cluster_calls]
    rfl
  refine ⟨hcalls, ?_, ?_⟩
  · rw [countP_isCreate_filter, hcalls]; rfl
  · rw [countP_isUpdate_filter, hcalls]; rfl

/-- C1 (create path), evaluated at a manifest that decodes to a descriptor
without a name: the cluster lists one deployment, named `api`, so no listed
deployment has the descriptor's (empty) name, and yet `Exec` issues no create
and one update, which the cluster rejects. -/
theorem Exec_create_path_unnamed :
    (∀ old ∈ [({ Name := "api", Namespace := "default", Other := "running" } :
        Deployment String)], old.Name ≠ "")
      ∧ (createKubeClient
          (demo.world { Name := "", Namespace := "", Other := "generateName: web-" }
            (.ok [{ Name := "api", Namespace := "default", Other := "running" }]))
          (demo.plugin "Y2E=" "")).ret = .ok "https://kube.example"
      ∧ (Exec
          (demo.world { Name := "", Namespace := "", Other := "generateName: web-" }
            (.ok [{ Name := "api", Namespace := "default", Other := "running" }]))
          (demo.plugin "Y2E=" "")).calls.filter Call.isCluster
        = [Call.DeploymentsList "default",
            Call.DeploymentsUpdate "default"
              { Name := "", Namespace := "default", Other := "generateName: web-" }]
      ∧ (Exec
          (demo.world { Name := "", Namespace := "", Other := "generateName: web-" }
            (.ok [{ Name := "api", Namespace := "default", Other := "running" }]))
          (demo.plugin "Y2E=" "")).calls.countP Call.isCreate = 0
      ∧ (Exec
          (demo.world { Name := "", Namespace := "", Other := "generateName: web-" }
            (.ok [{ Name := "api", Namespace := "default", Other := "running" }]))
          (demo.plugin "Y2E=" "")).ret
        = some (.withMessage (.library "deployments.apps not found: ")
            "can't update provided deployment") := by
  refine ⟨by decide, rfl, rfl, rfl, rfl⟩

/-- C2 (update path): when the configuration is complete, the earlier steps
succeed with decoded descriptor `d`, and the list call in the resolved namespace
`ns` succeeds with a deployment named like `d`, the cluster calls of `Exec` are
the lookup in `ns` and one update in `ns` of `d` with its namespace set to `ns`
(nothing of the listed deployments enters it); `Exec` calls update once, create
never, and returns what the update returned, wrapped. -/
theorem Exec_update_path (w : World ρ κ β) (p : Plugin)
    (hServer : p.Config.Server ≠ "") (hToken : p.Config.Token ≠ "")
    (hCa : p.Config.Ca ≠ "") (hTemplate : p.Config.Template ≠ "")
    (clientset : κ) (hclient : (createKubeClient w p).ret = .ok clientset)
    (txt : String) (hsub : (openAndSub w p.Config.Template p).ret = .ok txt)
    (d : Deployment β) (hdec : w.DecodeInto txt = .ok d)
    (ns : String)
    (hns : ns = if p.Config.Namespace ≠ "" then p.Config.Namespace
      else if d.Namespace = "" then NamespaceDefault else d.Namespace)
    (items : List (Deployment β)) (hlist : w.DeploymentsList clientset ns = .ok items)
    (hmatch : ∃ old ∈ items, old.Name = d.Name) :
    (Exec w p).calls.filter Call.isCluster
        = [Call.DeploymentsList ns, Call.DeploymentsUpdate ns { d with Namespace := ns }]
      ∧ (Exec w p).calls.countP Call.isUpdate = 1
      ∧ (Exec w p).calls.countP Call.isCreate = 0
      ∧ (Exec w p).ret
        = errors.Wrap (errOf (w.DeploymentsUpdate clientset ns { d with Namespace := ns }))
            "can't update provided deployment" := by
  have hscan : (findDeployment.scan d.Name items).1.Name = d.Name :=
    scan_name_of_mem d.Name items hmatch
  have hexec := Exec_of_decoded w p hServer hToken hCa hTemplate clientset hclient txt hsub
    d hdec ns hns
  rw [hlist] at hexec
  simp only [hscan, if_true] at hexec
  have hcalls : (Exec w p).calls.filter Call.isCluster
      = [Call.DeploymentsList ns, Call.DeploymentsUpdate ns { d with Namespace := ns }] := by
    rw [hexec]
    simp only [List.append_assoc]
    rw [← List.append_assoc, ← List.append_assoc, filter_cluster_calls]
    rfl
  refine ⟨hcalls, ?_, ?_, ?_⟩
  · rw [countP_isUpdate_filter, hcalls]; rfl
  · rw [countP_isCreate_filter, hcalls]; rfl
  · rw [hexec]

/-- The update path on a cluster that lists `api` and `web`, for a manifest
named `web` and the override `prod`. -/
theorem Exec_update_path_witness :
    (Exec
        (demo.world { Name := "web", Namespace := "", Other := "replicas: 3" }
          (.ok [{ Name := "api", Namespace := "prod", Other := "running" },
            { Name := "web", Namespace := "prod", Other := "replicas: 2, running" }]))
        (demo.plugin "Y2E=" "prod")).calls.filter Call.isCluster
        = [Call.DeploymentsList "prod",
            Call.DeploymentsUpdate "prod"
              { Name := "web", Namespace := "prod", Other := "replicas: 3" }]
      ∧ (Exec
        (demo.world { Name := "web", Namespace := "", Other := "replicas: 3" }
          (.ok [{ Name := "api", Namespace := "prod", Other := "running" },
            { Name := "web", Namespace := "prod", Other := "replicas: 2, running" }]))
        (demo.plugin "Y2E=" "prod")).calls.countP Call.isUpdate = 1
      ∧ (Exec
        (demo.world { Name := "web", Namespace := "", Other := "replicas: 3" }
          (.ok [{ Name := "api", Namespace := "prod", Other := "running" },
            { Name := "web", Namespace := "prod", Other := "replicas: 2, running" }]))
        (demo.plugin "Y2E=" "prod")).calls.countP Call.isCreate = 0
      ∧ (Exec
        (demo.world { Name := "web", Namespace := "", Other := "replicas: 3" }
          (.ok [{ Name := "api", Namespace := "prod", Other := "running" },
            { Name := "web", Namespace := "prod", Other := "replicas: 2, running" }]))
        (demo.plugin "Y2E=" "prod")).ret = none :=
  Exec_update_path
    (demo.world { Name := "web", Namespace := "", Other := "replicas: 3" }
      (.ok [{ Name := "api", Namespace := "prod", Other := "running" },
        { Name := "web", Namespace := "prod", Other := "replicas: 2, running" }]))
    (demo.plugin "Y2E=" "prod") (by decide) (by decide) (by decide) (by decide)
    "https://kube.example" rfl "kind: Deployment" rfl
    { Name := "web", Namespace := "", Other := "replicas: 3" } rfl "prod" rfl
    [{ Name := "api", Namespace := "prod", Other := "running" },
      { Name := "web", Namespace := "prod", Other := "replicas: 2, running" }] rfl
    ⟨{ Name := "web", Namespace := "prod", Other := "replicas: 2, running" },
      by simp, rfl⟩

/-! ## Failures before any write -/

/-- C3 (lookup failure): when the configuration is complete, the earlier steps
succeed and the list call in the resolved namespace fails with `e`, `Exec`
returns `e` wrapped with the context "can't read deployments" (a non-nil
error whose text is that context, a colon and the text of `e`), its only
cluster call is the lookup, and it calls neither update nor create. -/
theorem Exec_lookup_failure (w : World ρ κ β) (p : Plugin)
    (hServer : p.Config.Server ≠ "") (hToken : p.Config.Token ≠ "")
    (hCa : p.Config.Ca ≠ "") (hTemplate : p.Config.Template ≠ "")
    (clientset : κ) (hclient : (createKubeClient w p).ret = .ok clientset)
    (txt : String) (hsub : (openAndSub w p.Config.Template p).ret = .ok txt)
    (d : Deployment β) (hdec : w.DecodeInto txt = .ok d)
    (ns : String)
    (hns : ns = if p.Config.Namespace ≠ "" then p.Config.Namespace
      else if d.Namespace = "" then NamespaceDefault else d.Namespace)
    (e : GoError) (hlist : w.DeploymentsList clientset ns = .error e) :
    (Exec w p).ret = some (.withMessage e "can't read deployments")
      ∧ (Exec w p).ret.map GoError.Error = some ("can't read deployments: " ++ e.Error)
      ∧ (Exec w p).ret.map GoError.Cause = some e.Cause
      ∧ (Exec w p).calls.filter Call.isCluster = [Call.DeploymentsList ns]
      ∧ (Exec w p).calls.countP Call.isUpdate = 0
      ∧ (Exec w p).calls.countP Call.isCreate = 0 := by
  have hexec := Exec_of_decoded w p hServer hToken hCa hTemplate clientset hclient txt hsub
    d hdec ns hns
  rw [hlist] at hexec
  have hcalls : (Exec w p).calls.filter Call.isCluster = [Call.DeploymentsList ns] := by
    rw [hexec]
    simp only
    rw [filter_cluster_calls]
    rfl
  refine ⟨by rw [hexec], by rw [hexec]; rfl, by rw [hexec]; rfl, hcalls, ?_, ?_⟩
  · rw [countP_isUpdate_filter, hcalls]; rfl
  · rw [countP_isCreate_filter, hcalls]; rfl

/-- The lookup failure on a cluster that refuses the connection. -/
theorem Exec_lookup_failure_witness :
    (Exec (demo.world { Name := "web", Namespace := "", Other := "replicas: 3" }
        (.error (.library "connection refused"))) (demo.plugin "Y2E=" "")).ret
        = some (.withMessage (.library "connection refused") "can't read deployments")
      ∧ (Exec (demo.world { Name := "web", Namespace := "", Other := "replicas: 3" }
        (.error (.library "connection refused"))) (demo.plugin "Y2E=" "")).ret.map
          GoError.Error = some "can't read deployments: connection refused"
      ∧ (Exec (demo.world { Name := "web", Namespace := "", Other := "replicas: 3" }
        (.error (.library "connection refused"))) (demo.plugin "Y2E=" "")).ret.map
          GoError.Cause = some (.library "connection refused")
      ∧ (Exec (demo.world { Name := "web", Namespace := "", Other := "replicas: 3" }
        (.error (.library "connection refused"))) (demo.plugin "Y2E=" "")).calls.filter
          Call.isCluster = [Call.DeploymentsList "default"]
      ∧ (Exec (demo.world { Name := "web", Namespace := "", Other := "replicas: 3" }
        (.error (.library "connection refused"))) (demo.plugin "Y2E=" "")).calls.countP
          Call.isUpdate = 0
      ∧ (Exec (demo.world { Name := "web", Namespace := "", Other := "replicas: 3" }
        (.error (.library "connection refused"))) (demo.plugin "Y2E=" "")).calls.countP
          Call.isCreate = 0 :=
  Exec_lookup_failure
    (demo.world { Name := "web", Namespace := "", Other := "replicas: 3" }
      (.error (.library "connection refused")))
    (demo.plugin "Y2E=" "") (by decide) (by decide) (by decide) (by decide)
    "https://kube.example" rfl "kind: Deployment" rfl
    { Name := "web", Namespace := "", Other := "replicas: 3" } rfl "default" rfl
    (.library "connection refused") rfl

/-- C4 (missing configuration): the four required fields are checked in the
order Server, Token, Ca, Template, and the first one that is empty decides:
`Exec` returns that field's own error and makes no library call at all (no
client construction, no template read, no cluster call), whatever the other
fields and the world are. -/
theorem Exec_missing_configuration (w : World ρ κ β) (p : Plugin) :
    (p.Config.Server = "" →
        Exec w p = ⟨some (.fundamental "KUBE_SERVER is not defined"), []⟩)
      ∧ (p.Config.Server ≠ "" → p.Config.Token = "" →
        Exec w p = ⟨some (.fundamental "KUBE_TOKEN is not defined"), []⟩)
      ∧ (p.Config.Server ≠ "" → p.Config.Token ≠ "" → p.Config.Ca = "" →
        Exec w p = ⟨some (.fundamental "KUBE_CA is not defined"), []⟩)
      ∧ (p.Config.Server ≠ "" → p.Config.Token ≠ "" → p.Config.Ca ≠ "" →
          p.Config.Template = "" →
        Exec w p
          = ⟨some (.fundamental "KUBE_TEMPLATE, or template must be defined"), []⟩) := by
  refine ⟨?_, ?_, ?_, ?_⟩
  · intro h
    unfold Exec
    simp only [h, if_true, errors.New]
  · intro h1 h2
    unfold Exec
    simp only [h1, h2, if_true, if_false, errors.New]
  · intro h1 h2 h3
    unfold Exec
    simp only [h1, h2, h3, if_true, if_false, errors.New]
  · intro h1 h2 h3 h4
    unfold Exec
    simp only [h1, h2, h3, h4, if_true, if_false, errors.New]

/-- The four missing-configuration errors, each at a plugin whose first empty
field is the one reported. -/
theorem Exec_missing_configuration_witness :
    Exec (demo.world { Name := "web", Namespace := "", Other := "replicas: 3" } (.ok []))
        { demo.plugin "" "" with
          Config := { Ca := "", Server := "", Token := "", Namespace := "", Template := "" } }
        = ⟨some (.fundamental "KUBE_SERVER is not defined"), []⟩
      ∧ Exec (demo.world { Name := "web", Namespace := "", Other := "replicas: 3" } (.ok []))
        { demo.plugin "" "" with
          Config := { Ca := "", Server := "https://kube.example", Token := "",
                      Namespace := "", Template := "" } }
        = ⟨some (.fundamental "KUBE_TOKEN is not defined"), []⟩
      ∧ Exec (demo.world { Name := "web", Namespace := "", Other := "replicas: 3" } (.ok []))
        (demo.plugin "" "")
        = ⟨some (.fundamental "KUBE_CA is not defined"), []⟩
      ∧ Exec (demo.world { Name := "web", Namespace := "", Other := "replicas: 3" } (.ok []))
        { demo.plugin "" "" with
          Config := { Ca := "Y2E=", Server := "https://kube.example", Token := "s3cr3t",
                      Namespace := "", Template := "" } }
        = ⟨some (.fundamental "KUBE_TEMPLATE, or template must be defined"), []⟩ :=
  ⟨(Exec_missing_configuration _ _).1 rfl,
    (Exec_missing_configuration _ _).2.1 (by decide) rfl,
    (Exec_missing_configuration _ _).2.2.1 (by decide) (by decide) rfl,
    (Exec_missing_configuration _ _).2.2.2 (by decide) (by decide) (by decide) rfl⟩

/-- C7 (invalid certificate authority): when Server, Token and Template are
non-empty and Ca is a non-empty string that base64 decoding rejects with
error `e`, `createKubeClient` returns `e` and no client after that one call,
and `Exec` returns `e` wrapped with "can't create kubernetes client" having
made no other call: no template read, no rendering, no cluster call. -/
theorem Exec_invalid_certificate_authority (w : World ρ κ β) (p : Plugin)
    (hServer : p.Config.Server ≠ "") (hToken : p.Config.Token ≠ "")
    (hCa : p.Config.Ca ≠ "") (hTemplate : p.Config.Template ≠ "")
    (e : GoError) (hdecode : w.DecodeString p.Config.Ca = .error e) :
    createKubeClient w p = ⟨.error e, [Call.DecodeString p.Config.Ca]⟩
      ∧ Exec w p
        = ⟨some (.withMessage e "can't create kubernetes client"),
            [Call.DecodeString p.Config.Ca]⟩ := by
  have hclient : createKubeClient w p = ⟨.error e, [Call.DecodeString p.Config.Ca]⟩ := by
    unfold createKubeClient
    rw [hdecode]
  refine ⟨hclient, ?_⟩
  unfold Exec
  simp only [hServer, hToken, hCa, hTemplate, if_false, hclient, errors.Wrap]

/-- The invalid certificate authority `not base64!`, rejected at its blank. -/
theorem Exec_invalid_certificate_authority_witness :
    createKubeClient
        (demo.world { Name := "web", Namespace := "", Other := "replicas: 3" } (.ok []))
        (demo.plugin "not base64!" "")
        = ⟨.error (.library "illegal base64 data at input byte 3"),
            [Call.DecodeString "not base64!"]⟩
      ∧ Exec (demo.world { Name := "web", Namespace := "", Other := "replicas: 3" } (.ok []))
        (demo.plugin "not base64!" "")
        = ⟨some (.withMessage (.library "illegal base64 data at input byte 3")
              "can't create kubernetes client"),
            [Call.DecodeString "not base64!"]⟩ :=
  Exec_invalid_certificate_authority
    (demo.world { Name := "web", Namespace := "", Other := "replicas: 3" } (.ok []))
    (demo.plugin "not base64!" "") (by decide) (by decide) (by decide) (by decide)
    (.library "illegal base64 data at input byte 3") rfl

end Claims

/-! ## The credential set -/

/-- C9 (credential set): when base64 decoding of Ca yields the bytes `ca`,
`createKubeClient` hands the client builder one configuration, for the context
"drone", and that configuration has exactly one cluster entry, one credential
entry and one context entry, each named "drone": the cluster carries
Config.Server and `ca`, the credential carries Config.Token, the context binds
cluster "drone" to credential "drone", and the current context is "drone". -/
theorem createKubeClient_credential_set (w : World ρ κ β) (p : Plugin)
    (ca : List Nat) (hdecode : w.DecodeString p.Config.Ca = .ok ca) :
    ∃ config : api.Config,
      (createKubeClient w p).calls.filter
          Call.isClientConfig
        = [Call.ClientConfig config "drone"]
      ∧ config.Clusters
        = [("drone", { Server := p.Config.Server, CertificateAuthorityData := ca })]
      ∧ config.AuthInfos = [("drone", { Token := p.Config.Token })]
      ∧ config.Contexts = [("drone", { Cluster := "drone", AuthInfo := "drone" })]
      ∧ config.CurrentContext = "drone"
      ∧ config.Clusters.length = 1 ∧ config.AuthInfos.length = 1
      ∧ config.Contexts.length = 1 := by
  refine ⟨⟨[("drone", ⟨p.Config.Server, ca⟩)], [("drone", ⟨p.Config.Token⟩)],
    [("drone", ⟨"drone", "drone"⟩)], "drone"⟩, ?_, rfl, rfl, rfl, rfl, rfl, rfl, rfl⟩
  unfold createKubeClient
  rw [hdecode]
  dsimp only
  split <;> rfl

/-- The credential set built for the certificate authority `Y2E=`, the bytes of
`ca`. -/
theorem createKubeClient_credential_set_witness :
    ∃ config : api.Config,
      (createKubeClient
          (demo.world { Name := "web", Namespace := "", Other := "replicas: 3" } (.ok []))
          (demo.plugin "Y2E=" "")).calls.filter
          Call.isClientConfig
        = [Call.ClientConfig config "drone"]
      ∧ config.Clusters
        = [("drone", { Server := "https://kube.example",
                       CertificateAuthorityData := [99, 97] })]
      ∧ config.AuthInfos = [("drone", { Token := "s3cr3t" })]
      ∧ config.Contexts = [("drone", { Cluster := "drone", AuthInfo := "drone" })]
      ∧ config.CurrentContext = "drone"
      ∧ config.Clusters.length = 1 ∧ config.AuthInfos.length = 1
      ∧ config.Contexts.length = 1 :=
  createKubeClient_credential_set
    (demo.world { Name := "web", Namespace := "", Other := "replicas: 3" } (.ok []))
    (demo.plugin "Y2E=" "") [99, 97] rfl

/-! ## The namespace of the cluster calls -/

section Namespace

variable [Inhabited β]

/-- C5 (namespace override): with a non-empty Config.Namespace, whatever
namespace the decoded descriptor `d` has, the lookup is made in
Config.Namespace, and the update or create that follows a successful lookup is
made in Config.Namespace and submits `d` with its namespace field set to
Config.Namespace. -/
theorem Exec_namespace_override (w : World ρ κ β) (p : Plugin)
    (hServer : p.Config.Server ≠ "") (hToken : p.Config.Token ≠ "")
    (hCa : p.Config.Ca ≠ "") (hTemplate : p.Config.Template ≠ "")
    (clientset : κ) (hclient : (createKubeClient w p).ret = .ok clientset)
    (txt : String) (hsub : (openAndSub w p.Config.Template p).ret = .ok txt)
    (d : Deployment β) (hdec : w.DecodeInto txt = .ok d)
    (hoverride : p.Config.Namespace ≠ "") :
    ((Exec w p).calls.filter Call.isCluster = [Call.DeploymentsList p.Config.Namespace]
        ∨ (Exec w p).calls.filter Call.isCluster
          = [Call.DeploymentsList p.Config.Namespace,
              Call.DeploymentsUpdate p.Config.Namespace
                { d with Namespace := p.Config.Namespace }]
        ∨ (Exec w p).calls.filter Call.isCluster
          = [Call.DeploymentsList p.Config.Namespace,
              Call.DeploymentsCreate p.Config.Namespace
                { d with Namespace := p.Config.Namespace }])
      ∧ ∀ items, w.DeploymentsList clientset p.Config.Namespace = .ok items →
          (Exec w p).calls.filter Call.isCluster
            ≠ [Call.DeploymentsList p.Config.Namespace] :=
  Exec_cluster_calls_shape w p hServer hToken hCa hTemplate clientset hclient txt hsub
    d hdec p.Config.Namespace (by simp [hoverride])

/-- The override `prod` applied to a manifest that names the namespace
`staging`. -/
theorem Exec_namespace_override_witness :
    ((Exec (demo.world { Name := "web", Namespace := "staging", Other := "replicas: 3" }
          (.ok [])) (demo.plugin "Y2E=" "prod")).calls.filter Call.isCluster
        = [Call.DeploymentsList "prod"]
        ∨ (Exec (demo.world { Name := "web", Namespace := "staging", Other := "replicas: 3" }
          (.ok [])) (demo.plugin "Y2E=" "prod")).calls.filter Call.isCluster
          = [Call.DeploymentsList "prod",
              Call.DeploymentsUpdate "prod"
                { Name := "web", Namespace := "prod", Other := "replicas: 3" }]
        ∨ (Exec (demo.world { Name := "web", Namespace := "staging", Other := "replicas: 3" }
          (.ok [])) (demo.plugin "Y2E=" "prod")).calls.filter Call.isCluster
          = [Call.DeploymentsList "prod",
              Call.DeploymentsCreate "prod"
                { Name := "web", Namespace := "prod", Other := "replicas: 3" }])
      ∧ ∀ items,
          (demo.world { Name := "web", Namespace := "staging", Other := "replicas: 3" }
            (.ok [])).DeploymentsList "https://kube.example" "prod" = .ok items →
          (Exec (demo.world { Name := "web", Namespace := "staging", Other := "replicas: 3" }
            (.ok [])) (demo.plugin "Y2E=" "prod")).calls.filter Call.isCluster
            ≠ [Call.DeploymentsList "prod"] :=
  Exec_namespace_override
    (demo.world { Name := "web", Namespace := "staging", Other := "replicas: 3" } (.ok []))
    (demo.plugin "Y2E=" "prod") (by decide) (by decide) (by decide) (by decide)
    "https://kube.example" rfl "kind: Deployment" rfl
    { Name := "web", Namespace := "staging", Other := "replicas: 3" } rfl (by decide)

/-- C6 (default namespace): with an empty Config.Namespace, a decoded
descriptor `d` without a namespace is looked up, and then updated or created,
in the namespace "default", submitted with its namespace field set to
"default"; a decoded descriptor with a namespace of its own is looked up, and
then updated or created, in that namespace and submitted unchanged. -/
theorem Exec_namespace_default (w : World ρ κ β) (p : Plugin)
    (hServer : p.Config.Server ≠ "") (hToken : p.Config.Token ≠ "")
    (hCa : p.Config.Ca ≠ "") (hTemplate : p.Config.Template ≠ "")
    (clientset : κ) (hclient : (createKubeClient w p).ret = .ok clientset)
    (txt : String) (hsub : (openAndSub w p.Config.Template p).ret = .ok txt)
    (d : Deployment β) (hdec : w.DecodeInto txt = .ok d)
    (hnooverride : p.Config.Namespace = "") :
    (d.Namespace = "" →
        ((Exec w p).calls.filter Call.isCluster = [Call.DeploymentsList "default"]
          ∨ (Exec w p).calls.filter Call.isCluster
            = [Call.DeploymentsList "default",
                Call.DeploymentsUpdate "default" { d with Namespace := "default" }]
          ∨ (Exec w p).calls.filter Call.isCluster
            = [Call.DeploymentsList "default",
                Call.DeploymentsCreate "default" { d with Namespace := "default" }])
        ∧ ∀ items, w.DeploymentsList clientset "default" = .ok items →
            (Exec w p).calls.filter Call.isCluster ≠ [Call.DeploymentsList "default"])
      ∧ (d.Namespace ≠ "" →
        ((Exec w p).calls.filter Call.isCluster = [Call.DeploymentsList d.Namespace]
          ∨ (Exec w p).calls.filter Call.isCluster
            = [Call.DeploymentsList d.Namespace, Call.DeploymentsUpdate d.Namespace d]
          ∨ (Exec w p).calls.filter Call.isCluster
            = [Call.DeploymentsList d.Namespace, Call.DeploymentsCreate d.Namespace d])
        ∧ ∀ items, w.DeploymentsList clientset d.Namespace = .ok items →
            (Exec w p).calls.filter Call.isCluster ≠ [Call.DeploymentsList d.Namespace]) := by
  constructor
  · intro hempty
    exact Exec_cluster_calls_shape w p hServer hToken hCa hTemplate clientset hclient txt
      hsub d hdec "default" (by simp [hnooverride, hempty, NamespaceDefault])
  · intro hown
    exact Exec_cluster_calls_shape w p hServer hToken hCa hTemplate clientset hclient txt
      hsub d hdec d.Namespace (by simp [hnooverride, hown])

/-- The namespace without an override: `default` for a manifest without a
namespace, `staging` for a manifest that names it. -/
theorem Exec_namespace_default_witness :
    (((Exec (demo.world { Name := "web", Namespace := "", Other := "replicas: 3" } (.ok []))
          (demo.plugin "Y2E=" "")).calls.filter Call.isCluster
          = [Call.DeploymentsList "default"]
        ∨ (Exec (demo.world { Name := "web", Namespace := "", Other := "replicas: 3" }
            (.ok [])) (demo.plugin "Y2E=" "")).calls.filter Call.isCluster
          = [Call.DeploymentsList "default",
              Call.DeploymentsUpdate "default"
                { Name := "web", Namespace := "default", Other := "replicas: 3" }]
        ∨ (Exec (demo.world { Name := "web", Namespace := "", Other := "replicas: 3" }
            (.ok [])) (demo.plugin "Y2E=" "")).calls.filter Call.isCluster
          = [Call.DeploymentsList "default",
              Call.DeploymentsCreate "default"
                { Name := "web", Namespace := "default", Other := "replicas: 3" }])
      ∧ ∀ items,
          (demo.world { Name := "web", Namespace := "", Other := "replicas: 3" }
            (.ok [])).DeploymentsList "https://kube.example" "default" = .ok items →
          (Exec (demo.world { Name := "web", Namespace := "", Other := "replicas: 3" }
            (.ok [])) (demo.plugin "Y2E=" "")).calls.filter Call.isCluster
            ≠ [Call.DeploymentsList "default"])
    ∧ (((Exec (demo.world { Name := "web", Namespace := "staging", Other := "replicas: 3" }
          (.ok [])) (demo.plugin "Y2E=" "")).calls.filter Call.isCluster
          = [Call.DeploymentsList "staging"]
        ∨ (Exec (demo.world { Name := "web", Namespace := "staging", Other := "replicas: 3" }
            (.ok [])) (demo.plugin "Y2E=" "")).calls.filter Call.isCluster
          = [Call.DeploymentsList "staging",
              Call.DeploymentsUpdate "staging"
                { Name := "web", Namespace := "staging", Other := "replicas: 3" }]
        ∨ (Exec (demo.world { Name := "web", Namespace := "staging", Other := "replicas: 3" }
            (.ok [])) (demo.plugin "Y2E=" "")).calls.filter Call.isCluster
          = [Call.DeploymentsList "staging",
              Call.DeploymentsCreate "staging"
                { Name := "web", Namespace := "staging", Other := "replicas: 3" }])
      ∧ ∀ items,
          (demo.world { Name := "web", Namespace := "staging", Other := "replicas: 3" }
            (.ok [])).DeploymentsList "https://kube.example" "staging" = .ok items →
          (Exec (demo.world { Name := "web", Namespace := "staging", Other := "replicas: 3" }
            (.ok [])) (demo.plugin "Y2E=" "")).calls.filter Call.isCluster
            ≠ [Call.DeploymentsList "staging"]) :=
  ⟨(Exec_namespace_default
      (demo.world { Name := "web", Namespace := "", Other := "replicas: 3" } (.ok []))
      (demo.plugin "Y2E=" "") (by decide) (by decide) (by decide) (by decide)
      "https://kube.example" rfl "kind: Deployment" rfl
      { Name := "web", Namespace := "", Other := "replicas: 3" } rfl rfl).1 rfl,
    (Exec_namespace_default
      (demo.world { Name := "web", Namespace := "staging", Other := "replicas: 3" } (.ok []))
      (demo.plugin "Y2E=" "") (by decide) (by decide) (by decide) (by decide)
      "https://kube.example" rfl "kind: Deployment" rfl
      { Name := "web", Namespace := "staging", Other := "replicas: 3" } rfl rfl).2
      (by decide)⟩

end Namespace

/-! ## The decision as the code takes it, and the result of a run -/

section Decision

variable [Inhabited β]

/-- C10 (exact create-or-update decision): when the list call succeeds with
`items`, `findDeployment` returns the first item whose name is the requested
name, or the zero descriptor, whose name is empty, when there is none, and no
error; `Exec` issues the update, and not the create, exactly when the name of
the returned descriptor is the name of the decoded descriptor `d`, which is
exactly when some item has the name of `d` or the name of `d` is empty, and
it issues the create, and not the update, in every other case; so for `d`
without a name and an empty list `Exec` issues the update and no create. -/
theorem Exec_decision (w : World ρ κ β) (p : Plugin)
    (hServer : p.Config.Server ≠ "") (hToken : p.Config.Token ≠ "")
    (hCa : p.Config.Ca ≠ "") (hTemplate : p.Config.Template ≠ "")
    (clientset : κ) (hclient : (createKubeClient w p).ret = .ok clientset)
    (txt : String) (hsub : (openAndSub w p.Config.Template p).ret = .ok txt)
    (d : Deployment β) (hdec : w.DecodeInto txt = .ok d)
    (ns : String)
    (hns : ns = if p.Config.Namespace ≠ "" then p.Config.Namespace
      else if d.Namespace = "" then NamespaceDefault else d.Namespace)
    (items : List (Deployment β)) (hlist : w.DeploymentsList clientset ns = .ok items) :
    (∀ depName, (findDeployment w depName ns clientset).ret
        = ((items.find? (fun thisDep => thisDep.Name = depName)).getD Deployment.zero, none))
      ∧ (Deployment.zero : Deployment β).Name = ""
      ∧ ((Exec w p).calls.filter Call.isCluster
            = [Call.DeploymentsList ns, Call.DeploymentsUpdate ns { d with Namespace := ns }]
          ↔ (findDeployment w d.Name ns clientset).ret.1.Name = d.Name)
      ∧ ((findDeployment w d.Name ns clientset).ret.1.Name = d.Name
          ↔ (∃ old ∈ items, old.Name = d.Name) ∨ d.Name = "")
      ∧ ((Exec w p).calls.filter Call.isCluster
            = [Call.DeploymentsList ns, Call.DeploymentsCreate ns { d with Namespace := ns }]
          ↔ ¬ ((∃ old ∈ items, old.Name = d.Name) ∨ d.Name = ""))
      ∧ (d.Name = "" → items = [] →
          (Exec w p).calls.filter Call.isCluster
              = [Call.DeploymentsList ns, Call.DeploymentsUpdate ns { d with Namespace := ns }]
            ∧ (Exec w p).calls.countP Call.isUpdate = 1
            ∧ (Exec w p).calls.countP Call.isCreate = 0) := by
  have hfind : ∀ depName, (findDeployment w depName ns clientset).ret
      = findDeployment.scan depName items := by
    intro depName
    unfold findDeployment
    rw [hlist]
  have hcalls := Exec_cluster_calls w p hServer hToken hCa hTemplate clientset hclient txt
    hsub d hdec ns hns
  rw [hlist] at hcalls
  simp only at hcalls
  have hupdate : (Exec w p).calls.filter Call.isCluster
        = [Call.DeploymentsList ns, Call.DeploymentsUpdate ns { d with Namespace := ns }]
      ↔ (findDeployment.scan d.Name items).1.Name = d.Name := by
    rw [hcalls]
    by_cases hscan : (findDeployment.scan d.Name items).1.Name = d.Name
    · simp [hscan]
    · simp [hscan]
  have hcreate : (Exec w p).calls.filter Call.isCluster
        = [Call.DeploymentsList ns, Call.DeploymentsCreate ns { d with Namespace := ns }]
      ↔ ¬ (findDeployment.scan d.Name items).1.Name = d.Name := by
    rw [hcalls]
    by_cases hscan : (findDeployment.scan d.Name items).1.Name = d.Name
    · simp [hscan]
    · simp [hscan]
  refine ⟨?_, rfl, ?_, ?_, ?_, ?_⟩
  · intro depName
    rw [hfind]
    exact Prod.ext (scan_eq_find depName items) (scan_err depName items)
  · rw [hfind]
    exact hupdate
  · rw [hfind]
    exact scan_name_iff d.Name items
  · rw [hcreate, scan_name_iff]
  · intro hname _
    have hupd := hupdate.mpr ((scan_name_iff d.Name items).mpr (Or.inr hname))
    refine ⟨hupd, ?_, ?_⟩
    · rw [countP_isUpdate_filter, hupd]; rfl
    · rw [countP_isCreate_filter, hupd]; rfl

/-- The decision for a manifest without a name on an empty cluster: an update. -/
theorem Exec_decision_witness :
    (Exec (demo.world { Name := "", Namespace := "", Other := "generateName: web-" }
        (.ok [])) (demo.plugin "Y2E=" "")).calls.filter Call.isCluster
        = [Call.DeploymentsList "default",
            Call.DeploymentsUpdate "default"
              { Name := "", Namespace := "default", Other := "generateName: web-" }]
      ∧ (Exec (demo.world { Name := "", Namespace := "", Other := "generateName: web-" }
        (.ok [])) (demo.plugin "Y2E=" "")).calls.countP Call.isUpdate = 1
      ∧ (Exec (demo.world { Name := "", Namespace := "", Other := "generateName: web-" }
        (.ok [])) (demo.plugin "Y2E=" "")).calls.countP Call.isCreate = 0 :=
  (Exec_decision
    (demo.world { Name := "", Namespace := "", Other := "generateName: web-" } (.ok []))
    (demo.plugin "Y2E=" "") (by decide) (by decide) (by decide) (by decide)
    "https://kube.example" rfl "kind: Deployment" rfl
    { Name := "", Namespace := "", Other := "generateName: web-" } rfl "default" rfl
    [] rfl).2.2.2.2.2 rfl rfl

/-- C8 (result of a run): `Exec` returns nil exactly when the four required
fields are non-empty, client construction, template read, rendering, manifest
decoding and the list call succeed, and the one write that `Exec` issues after
the lookup, an update or a create, succeeds; in every other case the result is
a non-nil error.  A failed update is returned wrapped with "can't update
provided deployment", a failed create wrapped with "can't create provided
deployment". -/
theorem Exec_result (w : World ρ κ β) (p : Plugin) :
    ((Exec w p).ret = none ↔
        p.Config.Server ≠ "" ∧ p.Config.Token ≠ "" ∧ p.Config.Ca ≠ ""
          ∧ p.Config.Template ≠ ""
          ∧ ∃ clientset, (createKubeClient w p).ret = .ok clientset
          ∧ ∃ t, w.ReadFile p.Config.Template = .ok t
          ∧ ∃ txt, w.RenderTrim t p = .ok txt
          ∧ ∃ d, w.DecodeInto txt = .ok d
          ∧ ∃ ns items, w.DeploymentsList clientset ns = .ok items
          ∧ ∃ dep,
            ((Exec w p).calls.filter Call.isCluster
                = [Call.DeploymentsList ns, Call.DeploymentsUpdate ns dep]
              ∧ ∃ r, w.DeploymentsUpdate clientset ns dep = .ok r)
            ∨ ((Exec w p).calls.filter Call.isCluster
                = [Call.DeploymentsList ns, Call.DeploymentsCreate ns dep]
              ∧ ∃ r, w.DeploymentsCreate clientset ns dep = .ok r))
      ∧ ((Exec w p).ret ≠ none ↔ ∃ e, (Exec w p).ret = some e)
      ∧ (∀ clientset ns dep e, (createKubeClient w p).ret = .ok clientset →
          Call.DeploymentsUpdate ns dep ∈ (Exec w p).calls →
          w.DeploymentsUpdate clientset ns dep = .error e →
          (Exec w p).ret = some (.withMessage e "can't update provided deployment"))
      ∧ (∀ clientset ns dep e, (createKubeClient w p).ret = .ok clientset →
          Call.DeploymentsCreate ns dep ∈ (Exec w p).calls →
          w.DeploymentsCreate clientset ns dep = .error e →
          (Exec w p).ret = some (.withMessage e "can't create provided deployment")) := by
  by_cases hpre : p.Config.Server ≠ "" ∧ p.Config.Token ≠ "" ∧ p.Config.Ca ≠ ""
      ∧ p.Config.Template ≠ ""
      ∧ ∃ clientset txt d, (createKubeClient w p).ret = .ok clientset
        ∧ (openAndSub w p.Config.Template p).ret = .ok txt ∧ w.DecodeInto txt = .ok d
  · obtain ⟨hServer, hToken, hCa, hTemplate, clientset, txt, d, hclient, hsub, hdec⟩ := hpre
    obtain ⟨t, hread, hrender⟩ := (openAndSub_ok_iff w p.Config.Template p txt).mp hsub
    have hexec := Exec_of_decoded w p hServer hToken hCa hTemplate clientset hclient txt
      hsub d hdec _ rfl
    have hcalls := Exec_cluster_calls w p hServer hToken hCa hTemplate clientset hclient txt
      hsub d hdec _ rfl
    generalize (if p.Config.Namespace ≠ "" then p.Config.Namespace
      else if d.Namespace = "" then NamespaceDefault else d.Namespace) = ns0 at hexec hcalls
    cases hlist : w.DeploymentsList clientset ns0 with
    | error e0 =>
      rw [hlist] at hexec hcalls
      simp only at hexec hcalls
      refine ⟨?_, ?_, ?_, ?_⟩
      · rw [hcalls, hexec]
        simp
      · rw [hexec]
        simp
      · intro cs ns dep e _ hmem _
        rw [update_mem_iff, hcalls] at hmem
        simp at hmem
      · intro cs ns dep e _ hmem _
        rw [create_mem_iff, hcalls] at hmem
        simp at hmem
    | ok items =>
      rw [hlist] at hexec hcalls
      simp only at hexec hcalls
      by_cases hscan : (findDeployment.scan d.Name items).1.Name = d.Name
      · simp only [hscan, if_true] at hexec hcalls
        refine ⟨?_, ?_, ?_, ?_⟩
        · constructor
          · intro hnil
            refine ⟨hServer, hToken, hCa, hTemplate, clientset, hclient, t, hread, txt,
              hrender, d, hdec, ns0, items, hlist, { d with Namespace := ns0 },
              Or.inl ⟨hcalls, ?_⟩⟩
            rw [hexec] at hnil
            cases hupd : w.DeploymentsUpdate clientset ns0 { d with Namespace := ns0 } with
            | error e0 => simp [hupd, errOf, errors.Wrap] at hnil
            | ok r => exact ⟨r, rfl⟩
          · rintro ⟨_, _, _, _, cs, hcs, _, _, _, _, _, _, ns, _, _, dep, hwrite⟩
            have hcseq : cs = clientset := by
              rw [hclient] at hcs
              exact (Except.ok.inj hcs).symm
            subst hcseq
            rw [hcalls] at hwrite
            rcases hwrite with ⟨heq, r, hr⟩ | ⟨heq, _⟩
            · simp only [List.cons.injEq, Call.DeploymentsList.injEq,
                Call.DeploymentsUpdate.injEq, and_true] at heq
              obtain ⟨hnseq, _, hdepeq⟩ := heq
              subst hnseq
              subst hdepeq
              rw [hexec, hr]
              rfl
            · simp at heq
        · rw [hexec]
          cases w.DeploymentsUpdate clientset ns0 { d with Namespace := ns0 } <;>
            simp [errOf, errors.Wrap]
        · intro cs ns dep e hcs hmem herr
          have hcseq : cs = clientset := by
            rw [hclient] at hcs
            exact (Except.ok.inj hcs).symm
          subst hcseq
          rw [update_mem_iff, hcalls] at hmem
          simp at hmem
          obtain ⟨hnseq, hdepeq⟩ := hmem
          subst hnseq
          subst hdepeq
          rw [hexec, herr]
          rfl
        · intro cs ns dep e _ hmem _
          rw [create_mem_iff, hcalls] at hmem
          simp at hmem
      · simp only [hscan, if_false] at hexec hcalls
        refine ⟨?_, ?_, ?_, ?_⟩
        · constructor
          · intro hnil
            refine ⟨hServer, hToken, hCa, hTemplate, clientset, hclient, t, hread, txt,
              hrender, d, hdec, ns0, items, hlist, { d with Namespace := ns0 },
              Or.inr ⟨hcalls, ?_⟩⟩
            rw [hexec] at hnil
            cases hcre : w.DeploymentsCreate clientset ns0 { d with Namespace := ns0 } with
            | error e0 => simp [hcre, errOf, errors.Wrap] at hnil
            | ok r => exact ⟨r, rfl⟩
          · rintro ⟨_, _, _, _, cs, hcs, _, _, _, _, _, _, ns, _, _, dep, hwrite⟩
            have hcseq : cs = clientset := by
              rw [hclient] at hcs
              exact (Except.ok.inj hcs).symm
            subst hcseq
            rw [hcalls] at hwrite
            rcases hwrite with ⟨heq, _⟩ | ⟨heq, r, hr⟩
            · simp at heq
            · simp only [List.cons.injEq, Call.DeploymentsList.injEq,
                Call.DeploymentsCreate.injEq, and_true] at heq
              obtain ⟨hnseq, _, hdepeq⟩ := heq
              subst hnseq
              subst hdepeq
              rw [hexec, hr]
              rfl
        · rw [hexec]
          cases w.DeploymentsCreate clientset ns0 { d with Namespace := ns0 } <;>
            simp [errOf, errors.Wrap]
        · intro cs ns dep e _ hmem _
          rw [update_mem_iff, hcalls] at hmem
          simp at hmem
        · intro cs ns dep e hcs hmem herr
          have hcseq : cs = clientset := by
            rw [hclient] at hcs
            exact (Except.ok.inj hcs).symm
          subst hcseq
          rw [create_mem_iff, hcalls] at hmem
          simp at hmem
          obtain ⟨hnseq, hdepeq⟩ := hmem
          subst hnseq
          subst hdepeq
          rw [hexec, herr]
          rfl
  · obtain ⟨hret, hcalls⟩ := Exec_early w p hpre
    refine ⟨?_, ?_, ?_, ?_⟩
    · constructor
      · intro hnil
        exact absurd hnil hret
      · rintro ⟨h1, h2, h3, h4, cs, hcs, t, hread, txt, hrender, d, hdec, _⟩
        exact absurd ⟨h1, h2, h3, h4, cs, txt, d, hcs,
          (openAndSub_ok_iff w p.Config.Template p txt).mpr ⟨t, hread, hrender⟩, hdec⟩ hpre
    · exact Option.ne_none_iff_exists'
    · intro cs ns dep e _ hmem _
      rw [update_mem_iff, hcalls] at hmem
      simp at hmem
    · intro cs ns dep e _ hmem _
      rw [create_mem_iff, hcalls] at hmem
      simp at hmem

/-- A run of `Exec` that returns nil: a named manifest, an empty cluster, and
a create that the cluster accepts. -/
theorem Exec_result_witness :
    (Exec (demo.world { Name := "web", Namespace := "", Other := "replicas: 3" } (.ok []))
      (demo.plugin "Y2E=" "")).ret = none :=
  (Exec_result
    (demo.world { Name := "web", Namespace := "", Other := "replicas: 3" } (.ok []))
    (demo.plugin "Y2E=" "")).1.mpr
    ⟨by decide, by decide, by decide, by decide, "https://kube.example", rfl,
      "kind: Deployment", rfl, "kind: Deployment", rfl,
      { Name := "web", Namespace := "", Other := "replicas: 3" }, rfl, "default", [], rfl,
      { Name := "web", Namespace := "default", Other := "replicas: 3" },
      Or.inr ⟨rfl, { Name := "web", Namespace := "default", Other := "replicas: 3" }, rfl⟩⟩

end Decision

end DroneKube
